import Mathlib

/-!
Shallow embedding of the fire_Wall application firewall prototype
(src/fire_Wall/app_firewall.py and src/fire_Wall/cleanup_anomalies_script.py).

The persistent stores (sqlite tables app_policies and network_logs) are
modelled as Lean lists of rows in insertion order.  External library calls
(psutil process/socket enumeration, sklearn IsolationForest, uuid4, now())
are modelled as explicit inputs: the observed sockets and processes are
parameters, fresh ids come from an id source, and the model fit is an
abstract fallible function parameter.
-/

/-- One row of the network_logs table: id PK, app_name, timestamp,
destination, protocol, bytes_sent, bytes_received.  Also the shape of the
log_entry dict built by monitor_network_traffic. -/
structure ConnectionRecord where
  id : String
  app_name : String
  timestamp : String
  destination : String
  protocol : String
  bytes_sent : Int
  bytes_received : Int
deriving DecidableEq, Repr

/-- One row of the app_policies table: id PK, app_name, CSV strings for the
allowed domains / ips / protocols, is_active flag. -/
structure PolicyRow where
  id : String
  app_name : String
  allowed_domains : String
  allowed_ips : String
  allowed_protocols : String
  is_active : Bool
deriving DecidableEq, Repr

/-- Sqlite INSERT OR REPLACE on a table whose PRIMARY KEY is the id column:
if a row with the same id exists it is replaced in place, otherwise the new
row is appended. -/
def insert_or_replace (row : PolicyRow) (t : List PolicyRow) : List PolicyRow :=
  if t.any (fun r => r.id == row.id) then
    t.map (fun r => if r.id == row.id then row else r)
  else
    t ++ [row]

/-- The create_policy route handler (app_firewall.py lines 191-215): builds a
PolicyRow from the request data with a fresh uuid4 as id and
comma-joined CSV fields, then runs INSERT OR REPLACE on app_policies.
freshId stands for the str(uuid.uuid4()) generated on this call. -/
def create_policy (freshId : String) (app_name : String)
    (allowed_domains allowed_ips allowed_protocols : List String)
    (is_active : Bool) (t : List PolicyRow) : List PolicyRow :=
  insert_or_replace
    { id := freshId
      app_name := app_name
      allowed_domains := String.intercalate "," allowed_domains
      allowed_ips := String.intercalate "," allowed_ips
      allowed_protocols := String.intercalate "," allowed_protocols
      is_active := is_active } t

/-- Number of active policy rows for a given application name. -/
def active_policy_count (app : String) (t : List PolicyRow) : Nat :=
  (t.filter (fun r => r.app_name == app && r.is_active)).length

/-- Verdict outcome of the Decision Engine. -/
inductive Outcome where
  | ALLOW
  | BLOCK
deriving DecidableEq, Repr

/-- Verdict produced by the Decision Engine for one ConnectionRecord. -/
structure Verdict where
  connectionId : String
  outcome : Outcome
  reason : String
deriving DecidableEq, Repr

/-- Modelled from the spec: the Policy value consumed by the Decision Engine
(spec section 3).  The Decision Engine itself is absent from src/ (the spec
notes in section 9 that no enforcement hook exists in the source), so its
data is taken from the spec words. -/
structure Policy where
  id : String
  appName : String
  allowedDomains : List String
  allowedIPs : List String
  allowedProtocols : List String
  isActive : Bool
deriving DecidableEq, Repr

/-- Host part of a destination string of the form host:port. -/
def destination_host (dest : String) : String :=
  (dest.splitOn ":").headD ""

/-- Modelled from the spec: the Decision Engine decide(record, policy)
of spec section 4.4, which is absent from src/.  Absent policy gives ALLOW
with reason "no policy configured"; an inactive policy gives ALLOW with
reason "policy inactive"; otherwise BLOCK unless the destination host
matches allowedDomains (case-insensitive) or allowedIPs (exact string) and
the protocol is in allowedProtocols, with the reason naming the failing
dimension. -/
def decide_verdict (r : ConnectionRecord) (policy : Option Policy) : Verdict :=
  match policy with
  | none => { connectionId := r.id, outcome := .ALLOW, reason := "no policy configured" }
  | some p =>
    if p.isActive = false then
      { connectionId := r.id, outcome := .ALLOW, reason := "policy inactive" }
    else
      let host := destination_host r.destination
      let destOk := p.allowedDomains.any (fun d => d.toLower == host.toLower)
        || p.allowedIPs.any (fun ip => ip == host)
      let protoOk := p.allowedProtocols.any (fun pr => pr == r.protocol)
      if destOk && protoOk then
        { connectionId := r.id, outcome := .ALLOW, reason := "matches policy" }
      else if !destOk then
        { connectionId := r.id, outcome := .BLOCK, reason := "domain/IP mismatch" }
      else
        { connectionId := r.id, outcome := .BLOCK, reason := "protocol mismatch" }

/-- The _log_network_activity insert (app_firewall.py lines 110-130): an
INSERT into network_logs whose id column is the PRIMARY KEY.  Inserting a
row whose id already exists raises a sqlite integrity error before the
commit, so the table is unchanged; the error propagates to the caller.
On success the new row is appended. -/
def log_network_activity (e : ConnectionRecord) (s : List ConnectionRecord) :
    Except String (List ConnectionRecord) :=
  if s.any (fun r => r.id == e.id) then
    .error "UNIQUE constraint failed: network_logs.id"
  else
    .ok (s ++ [e])

/-- Operations on the network_logs table appearing in the repository:
append (_log_network_activity), the per-application query (get_app_logs),
the full-table read (detect_anomalies), the row count (detect_anomalies),
and clearAll (cleanup_network_logs, DELETE FROM network_logs). -/
inductive StoreOp where
  | append : ConnectionRecord → StoreOp
  | queryByApp : String → StoreOp
  | queryAll : StoreOp
  | countRows : StoreOp
  | clearAll : StoreOp
deriving DecidableEq, Repr

/-- Effect of one store operation on the network_logs table state.  Reads
leave the table unchanged; a failed append (duplicate id) leaves it
unchanged because the transaction is never committed; clearAll deletes
every row. -/
def applyOp : StoreOp → List ConnectionRecord → List ConnectionRecord
  | .append e, s =>
    match log_network_activity e s with
    | .ok s2 => s2
    | .error _ => s
  | .queryByApp _, s => s
  | .queryAll, s => s
  | .countRows, s => s
  | .clearAll, _ => []

/-- Effect of a sequence of store operations, applied left to right. -/
def applyOps (ops : List StoreOp) (s : List ConnectionRecord) : List ConnectionRecord :=
  ops.foldl (fun acc op => applyOp op acc) s

/-- SELECT COUNT(*) FROM network_logs. -/
def count_store (s : List ConnectionRecord) : Nat :=
  s.length

/-- SELECT * FROM network_logs (the full-table read used by the detector). -/
def query_all (s : List ConnectionRecord) : List ConnectionRecord :=
  s

/-- SELECT * FROM network_logs WHERE app_name = ? (get_app_logs). -/
def query_by_app (app : String) (s : List ConnectionRecord) : List ConnectionRecord :=
  s.filter (fun r => r.app_name == app)

/-- Feature extraction of detect_anomalies: the (bytes_sent, bytes_received)
pair of every row, in table order (df bracket bytes_sent, bytes_received
.values). -/
def extract_features (logs : List ConnectionRecord) : List (Int × Int) :=
  logs.map (fun r => (r.bytes_sent, r.bytes_received))

/-- random_state=42 passed to the IsolationForest constructor. -/
def isolation_forest_random_state : Nat := 42

/-- contamination=0.1 passed to the IsolationForest constructor. -/
def isolation_forest_contamination : ℚ := 1 / 10

/-- Type of the abstract sklearn fit-plus-predict step: given the
random_state argument (none meaning the library falls back on the global
random generator), the ambient global random generator state, the
contamination fraction and the feature matrix, it either fails (any
exception during fitting) or returns one label per feature row, -1 marking
an outlier. -/
def FitPredict : Type :=
  Option Nat → Nat → ℚ → List (Int × Int) → Except String (List Int)

/-- Body of the try block of detect_anomalies once at least 10 rows exist:
extract features, fit IsolationForest(contamination=0.1, random_state=42),
keep the rows predicted -1; any exception is caught and yields the empty
list (app_firewall.py lines 149-167). -/
def run_isolation_forest (fp : FitPredict) (globalRng : Nat)
    (logs : List ConnectionRecord) : List ConnectionRecord :=
  match fp (some isolation_forest_random_state) globalRng
      isolation_forest_contamination (extract_features logs) with
  | .error _ => []
  | .ok preds =>
    (logs.zip preds).filterMap (fun rp => if rp.2 = -1 then some rp.1 else none)

/-- detect_anomalies (app_firewall.py lines 132-167): counts the rows of
network_logs, returns the empty list below 10 rows, otherwise reads the
full table and runs the IsolationForest step on it.  The table state is
the logs parameter; fp is the abstract library fit, globalRng the ambient
global random generator state at call time. -/
def detect_anomalies (fp : FitPredict) (globalRng : Nat)
    (logs : List ConnectionRecord) : List ConnectionRecord :=
  if count_store logs < 10 then []
  else run_isolation_forest fp globalRng logs

/-- One socket returned by psutil.net_connections() as the source reads it:
optional local and remote address (ip, port), the transport type name when
the type object has a name attribute, the sent and received counters read
as conn.sent and conn.recv (none models a Python None, turned into 0 by
the `or 0`), and the owning process id psutil reports (unused by the
source, needed to state the owning-process claim). -/
structure SocketConn where
  laddr : Option (String × Nat)
  raddr : Option (String × Nat)
  type_name : Option String
  sent : Option Int
  recv : Option Int
  pid : Option Nat
deriving DecidableEq, Repr

/-- Python truthiness of conn.laddr and conn.raddr: the empty address tuple
is falsy, a populated one truthy. -/
def established (conns : List SocketConn) : List SocketConn :=
  conns.filter (fun c => c.laddr.isSome && c.raddr.isSome)

/-- The log_entry dict built inside the loop of monitor_network_traffic for
one connection: fresh uuid4 id, the app_name argument, timestamp now(),
destination raddr.ip:raddr.port, protocol conn.type.name when present else
the string Unknown, byte counters defaulted to 0.  The filter guarantees
raddr is present; an absent raddr gives an empty destination. -/
def build_log_entry (app_name : String) (freshId : String) (now : String)
    (c : SocketConn) : ConnectionRecord :=
  { id := freshId
    app_name := app_name
    timestamp := now
    destination :=
      match c.raddr with
      | some r => r.1 ++ ":" ++ toString r.2
      | none => ""
    protocol := c.type_name.getD "Unknown"
    bytes_sent := (c.sent.getD 0)
    bytes_received := (c.recv.getD 0) }

/-- Entries built by the loop, in connection order starting at id index i:
the k-th connection gets the fresh id ids (i+k) from the uuid4 source. -/
def monitor_entries_from (app_name : String) (ids : Nat → String) (now : String) :
    Nat → List SocketConn → List ConnectionRecord
  | _, [] => []
  | i, c :: rest =>
    build_log_entry app_name (ids i) now c ::
      monitor_entries_from app_name ids now (i + 1) rest

/-- All log entries monitor_network_traffic builds for one pass: one per
established connection (both laddr and raddr present). -/
def monitor_entries (app_name : String) (ids : Nat → String) (now : String)
    (conns : List SocketConn) : List ConnectionRecord :=
  monitor_entries_from app_name ids now 0 (established conns)

/-- The insert loop of monitor_network_traffic: each entry is inserted by
_log_network_activity; a raised insert error escapes the for loop and is
caught by the except around the whole pass, so the remaining entries are
skipped and the table keeps what was committed so far. -/
def monitor_loop : List ConnectionRecord → List ConnectionRecord → List ConnectionRecord
  | [], store => store
  | e :: rest, store =>
    match log_network_activity e store with
    | .error _ => store
    | .ok s2 => monitor_loop rest s2

/-- monitor_network_traffic (app_firewall.py lines 89-108): filters the
observed connections to those with both addresses, builds one log entry
per connection and inserts each into network_logs; the single try/except
wrapping the whole pass catches any exception and logs it, so the call
itself never raises.  Result: the network_logs table after the pass. -/
def monitor_network_traffic (app_name : String) (ids : Nat → String) (now : String)
    (conns : List SocketConn) (store : List ConnectionRecord) : List ConnectionRecord :=
  monitor_loop (monitor_entries app_name ids now conns) store

/-- Modelled from the spec: resolution of the owning process name of a
socket via the operating system process table (spec section 4.3 says the
collector resolves the owning process name per observed socket; src/ has
no such lookup, so this definition follows the spec words and is compared
against what the code produces). -/
def spec_resolved_app_name (table : List (Nat × String)) (c : SocketConn) :
    Option String :=
  match c.pid with
  | none => none
  | some p => (table.find? (fun e => e.1 == p)).map (fun e => e.2)

/-- Per-process failure modes that the except clause of
get_running_processes catches: psutil.NoSuchProcess and
psutil.AccessDenied. -/
inductive ProcFailure where
  | noSuchProcess
  | accessDenied
deriving DecidableEq, Repr

/-- One entry yielded by psutil.process_iter with the pid, name and exe
attrs: exe is none when the exe key is absent from the info dict. -/
structure ProcInfo where
  pid : Nat
  name : String
  exe : Option String
deriving DecidableEq, Repr

/-- The dict appended per process by get_running_processes. -/
structure ProcessDescriptor where
  pid : Nat
  name : String
  path : String
deriving DecidableEq, Repr

/-- get_running_processes (app_firewall.py lines 76-87): iterates the
process table, appends pid, name and exe-with-default-Unknown per process,
and silently skips any process whose lookup raised NoSuchProcess or
AccessDenied.  Each iterated item is either a successfully read ProcInfo
or one of the two caught failures. -/
def get_running_processes (procs : List (Except ProcFailure ProcInfo)) :
    List ProcessDescriptor :=
  procs.filterMap (fun p =>
    match p with
    | .error _ => none
    | .ok i => some { pid := i.pid, name := i.name, path := i.exe.getD "Unknown" })

/-- Ids of the rows of a network_logs table state, in table order. -/
def allIds (s : List ConnectionRecord) : List String :=
  s.map (fun r => r.id)

/-! Concrete sample inputs used to instantiate the theorems below. -/

/-- Id source producing pairwise distinct ids: the n-th fresh id is the
string of n copies of the character a. -/
def uuidStream (n : Nat) : String :=
  String.mk (List.replicate n 'a')

/-- Sample fit that labels every row 1 (no outliers), ignoring every
parameter; it is seed-deterministic by construction. -/
def fpConst : FitPredict :=
  fun _ _ _ xs => .ok (xs.map (fun _ => (1 : Int)))

/-- Sample fit that always fails, standing for an exception raised while
fitting. -/
def fpFail : FitPredict :=
  fun _ _ _ _ => .error "ModelFittingError"

/-- Sample connection record number n. -/
def sampleRecord (n : Nat) : ConnectionRecord :=
  { id := "r" ++ toString n
    app_name := "chrome.exe"
    timestamp := "2026-10-12 10:00:00"
    destination := "192.168.1.10:443"
    protocol := "SOCK_STREAM"
    bytes_sent := (n : Int)
    bytes_received := (n : Int) }

/-- Nine sample log rows. -/
def logs9 : List ConnectionRecord :=
  (List.range 9).map sampleRecord

/-- Ten sample log rows. -/
def logs10 : List ConnectionRecord :=
  (List.range 10).map sampleRecord

/-- Sample established socket owned by pid 100. -/
def sock1 : SocketConn :=
  { laddr := some ("192.168.1.5", 51000)
    raddr := some ("10.0.0.1", 443)
    type_name := some "SOCK_STREAM"
    sent := some 100
    recv := some 200
    pid := some 100 }

/-- Sample established socket owned by pid 200. -/
def sock2 : SocketConn :=
  { laddr := some ("192.168.1.5", 51001)
    raddr := some ("10.0.0.2", 443)
    type_name := some "SOCK_STREAM"
    sent := some 300
    recv := some 400
    pid := some 200 }

/-- Id source whose first fresh id collides with the pre-existing row of
storeDup below; later ids are fresh. -/
def idsDup : Nat → String :=
  fun i => if i == 0 then "u0" else "u1"

/-- Id source of pairwise distinct fresh ids. -/
def idsFresh : Nat → String :=
  fun i => "u" ++ toString i

/-- Pre-existing network_logs table already holding a row with id u0. -/
def storeDup : List ConnectionRecord :=
  [{ id := "u0"
     app_name := "old.exe"
     timestamp := "2026-10-12 09:00:00"
     destination := "10.0.0.9:80"
     protocol := "SOCK_STREAM"
     bytes_sent := 1
     bytes_received := 1 }]

/-- Sample operating-system process table for owner resolution. -/
def procTable1 : List (Nat × String) :=
  [(100, "chrome.exe")]

/-- Sample iterated process entries: one readable process, one denied
lookup, one readable process whose exe key is absent. -/
def procsSample : List (Except ProcFailure ProcInfo) :=
  [ .ok { pid := 1, name := "systemd", exe := some "/sbin/init" }
  , .error .accessDenied
  , .ok { pid := 7, name := "kworker", exe := none } ]

/-- Sample store-operation sequence without clearAll; the second append of
the same record fails on the duplicate id and leaves the table unchanged. -/
def opsSample : List StoreOp :=
  [ .append (sampleRecord 0)
  , .queryAll
  , .countRows
  , .queryByApp "chrome.exe"
  , .append (sampleRecord 0)
  , .append (sampleRecord 1) ]

/-- Sample log entry produced for sock1 with the first fresh id. -/
def sampleEntry : ConnectionRecord :=
  build_log_entry "chrome.exe" (uuidStream 0) "2026-10-12 10:00:00" sock1

/-! Helper lemmas. -/

/-- The uuidStream id source is injective. -/
theorem uuidStream_inj : ∀ j k : Nat, uuidStream j = uuidStream k → j = k := by
  intro j k h
  have h2 : (uuidStream j).data = (uuidStream k).data := congrArg String.data h
  simp only [uuidStream] at h2
  simpa using congrArg List.length h2

/-- monitor_loop only ever appends to the table: whatever failures occur,
the rows present before the pass survive it and the call returns normally. -/
theorem monitor_loop_extends (entries store : List ConnectionRecord) :
    ∃ t, monitor_loop entries store = store ++ t := by
  induction entries generalizing store with
  | nil => exact ⟨[], by simp [monitor_loop]⟩
  | cons e rest ih =>
    by_cases h : store.any (fun r => r.id == e.id) = true
    · exact ⟨[], by simp [monitor_loop, log_network_activity, h]⟩
    · obtain ⟨t, ht⟩ := ih (store ++ [e])
      exact ⟨[e] ++ t, by simp [monitor_loop, log_network_activity, h, ht]⟩

/-- When every entry id is fresh and the ids are pairwise distinct, the
insert loop commits every entry. -/
theorem monitor_loop_fresh (entries store : List ConnectionRecord)
    (h : (allIds store ++ allIds entries).Nodup) :
    monitor_loop entries store = store ++ entries := by
  induction entries generalizing store with
  | nil => simp [monitor_loop]
  | cons e rest ih =>
    have hdisj : (allIds store).Disjoint (allIds (e :: rest)) :=
      (List.nodup_append.mp h).2.2
    have hid : ¬ store.any (fun r => r.id == e.id) = true := by
      intro hc
      rw [List.any_eq_true] at hc
      obtain ⟨r, hr, hre⟩ := hc
      have hmem : e.id ∈ allIds store :=
        List.mem_map.mpr ⟨r, hr, by simpa using hre⟩
      exact hdisj hmem (by simp [allIds])
    have h2 : (allIds (store ++ [e]) ++ allIds rest).Nodup := by
      simpa [allIds, List.append_assoc] using h
    rw [monitor_loop]
    simp only [log_network_activity, hid, if_false, Bool.false_eq_true]
    rw [ih (store ++ [e]) h2]
    simp

/-- Every entry built by the loop carries the app_name argument and the
now() timestamp of the pass. -/
theorem monitor_entries_from_fields (app : String) (ids : Nat → String) (now : String) :
    ∀ (i : Nat) (cs : List SocketConn) (e : ConnectionRecord),
      e ∈ monitor_entries_from app ids now i cs →
        e.app_name = app ∧ e.timestamp = now := by
  intro i cs
  induction cs generalizing i with
  | nil => intro e he; simp [monitor_entries_from] at he
  | cons c rest ih =>
    intro e he
    rw [monitor_entries_from] at he
    rcases List.mem_cons.mp he with h | h
    · subst h; exact ⟨rfl, rfl⟩
    · exact ih (i + 1) e h

/-- Every id occurring among the entries built from index i on comes from
the id source at a position at least i. -/
theorem monitor_entries_from_id_mem (app : String) (ids : Nat → String) (now : String) :
    ∀ (i : Nat) (cs : List SocketConn) (x : String),
      x ∈ (monitor_entries_from app ids now i cs).map (fun r => r.id) →
        ∃ k, i ≤ k ∧ x = ids k := by
  intro i cs
  induction cs generalizing i with
  | nil => intro x hx; simp [monitor_entries_from] at hx
  | cons c rest ih =>
    intro x hx
    rw [monitor_entries_from] at hx
    simp only [List.map_cons, List.mem_cons] at hx
    rcases hx with h | h
    · exact ⟨i, le_refl i, by simpa [build_log_entry] using h⟩
    · obtain ⟨k, hk, hkx⟩ := ih (i + 1) x h
      exact ⟨k, by omega, hkx⟩

/-- With an injective id source, the ids of the built entries are pairwise
distinct. -/
theorem monitor_entries_from_ids_nodup (app : String) (ids : Nat → String) (now : String)
    (hinj : ∀ j k : Nat, ids j = ids k → j = k) :
    ∀ (i : Nat) (cs : List SocketConn),
      ((monitor_entries_from app ids now i cs).map (fun r => r.id)).Nodup := by
  intro i cs
  induction cs generalizing i with
  | nil => simp [monitor_entries_from]
  | cons c rest ih =>
    rw [monitor_entries_from]
    simp only [List.map_cons, List.nodup_cons]
    refine ⟨?_, ih (i + 1)⟩
    intro hmem
    obtain ⟨k, hk, hkx⟩ := monitor_entries_from_id_mem app ids now (i + 1) rest _ hmem
    have : i = k := hinj i k (by simpa [build_log_entry] using hkx)
    omega

/-- One entry is built per connection handed to the loop. -/
theorem monitor_entries_from_length (app : String) (ids : Nat → String) (now : String) :
    ∀ (i : Nat) (cs : List SocketConn),
      (monitor_entries_from app ids now i cs).length = cs.length := by
  intro i cs
  induction cs generalizing i with
  | nil => rfl
  | cons c rest ih => simp [monitor_entries_from, ih (i + 1)]

/-- A store operation other than clearAll never shrinks the table. -/
theorem applyOp_length_le (op : StoreOp) (s : List ConnectionRecord)
    (h : op ≠ StoreOp.clearAll) : s.length ≤ (applyOp op s).length := by
  cases op with
  | append e =>
    by_cases hc : s.any (fun r => r.id == e.id) = true
    · simp [applyOp, log_network_activity, hc]
    · simp [applyOp, log_network_activity, hc]
  | queryByApp a => exact le_refl _
  | queryAll => exact le_refl _
  | countRows => exact le_refl _
  | clearAll => exact absurd rfl h

/-- A sequence of store operations without clearAll never shrinks the
table. -/
theorem applyOps_length_le : ∀ (ops : List StoreOp) (s : List ConnectionRecord),
    StoreOp.clearAll ∉ ops → s.length ≤ (applyOps ops s).length := by
  intro ops
  induction ops with
  | nil => intro s _; exact le_refl _
  | cons op rest ih =>
    intro s h
    have h1 : op ≠ StoreOp.clearAll := by
      intro he
      subst he
      exact h (List.mem_cons_self _ _)
    have h2 : StoreOp.clearAll ∉ rest := fun hm => h (List.mem_cons_of_mem op hm)
    exact le_trans (applyOp_length_le op s h1) (ih (applyOp op s) h2)

/-! Claim theorems. -/

/-- C1: for every ConnectionRecord r, the Decision Engine with an absent
policy returns an ALLOW verdict with reason "no policy configured". -/
theorem decide_no_policy_allows (r : ConnectionRecord) :
    decide_verdict r none =
      { connectionId := r.id, outcome := Outcome.ALLOW, reason := "no policy configured" } :=
  rfl

/-- C2 failing-input evaluation: starting from an empty app_policies table,
two create_policy calls with identical request content (fresh uuids u1 and
u2) leave two active rows for chrome.exe, not one: the fresh uuid primary
key means INSERT OR REPLACE always inserts, and prior rows for the same
app_name are never deactivated. -/
theorem create_policy_twice_leaves_two_active_rows :
    active_policy_count "chrome.exe"
      (create_policy "u2" "chrome.exe" [] ["192.168.1.10"] ["TCP"] true
        (create_policy "u1" "chrome.exe" [] ["192.168.1.10"] ["TCP"] true [])) = 2 := by
  decide

/-- C3: detect_anomalies returns the empty set on every batch of fewer than
10 records, in particular on exactly 9; on a batch of exactly 10 records it
runs the IsolationForest step on the batch. -/
theorem detect_anomalies_batch_size_boundary :
    (∀ (fp : FitPredict) (g : Nat) (logs : List ConnectionRecord),
        logs.length < 10 → detect_anomalies fp g logs = []) ∧
    (∀ (fp : FitPredict) (g : Nat) (logs : List ConnectionRecord),
        logs.length = 9 → detect_anomalies fp g logs = []) ∧
    (∀ (fp : FitPredict) (g : Nat) (logs : List ConnectionRecord),
        logs.length = 10 → detect_anomalies fp g logs = run_isolation_forest fp g logs) := by
  refine ⟨?_, ?_, ?_⟩ <;> intro fp g logs h <;>
    simp [detect_anomalies, count_store, h]

/-- C3 witness: the boundary statements instantiated on concrete batches of
0, 9 and 10 sample records. -/
theorem detect_anomalies_batch_size_boundary_witness :
    detect_anomalies fpConst 0 [] = [] ∧
    detect_anomalies fpConst 0 logs9 = [] ∧
    detect_anomalies fpConst 0 logs10 = run_isolation_forest fpConst 0 logs10 :=
  ⟨detect_anomalies_batch_size_boundary.1 fpConst 0 [] (by decide),
   detect_anomalies_batch_size_boundary.2.1 fpConst 0 logs9 (by decide),
   detect_anomalies_batch_size_boundary.2.2 fpConst 0 logs10 (by decide)⟩

/-- C4: detect_anomalies is deterministic over identical batches of at
least 10 records: the code passes the fixed random_state 42 and the fixed
contamination 0.1 to the model, so for any library fit whose output with a
fixed seed does not depend on the ambient global random generator state,
two invocations under different ambient states agree. -/
theorem detect_anomalies_deterministic (fp : FitPredict)
    (hfp : ∀ (s g g2 : Nat) (c : ℚ) (xs : List (Int × Int)),
      fp (some s) g c xs = fp (some s) g2 c xs)
    (g g2 : Nat) (logs : List ConnectionRecord) (_hlen : 10 ≤ logs.length) :
    detect_anomalies fp g logs = detect_anomalies fp g2 logs := by
  unfold detect_anomalies run_isolation_forest
  rw [hfp isolation_forest_random_state g g2]

/-- C4 witness: determinism instantiated on the 10-record sample batch and
two different ambient generator states. -/
theorem detect_anomalies_deterministic_witness :
    detect_anomalies fpConst 0 logs10 = detect_anomalies fpConst 1 logs10 :=
  detect_anomalies_deterministic fpConst (fun _ _ _ _ _ => rfl) 0 1 logs10 (by decide)

/-- C5: when the fit step fails (any exception raised inside the try block
covering feature handling and model fitting), detect_anomalies returns the
empty set for that cycle; its return type carries no error, so no such
exception reaches the caller. -/
theorem detect_anomalies_absorbs_fit_failure (fp : FitPredict) (g : Nat)
    (logs : List ConnectionRecord) (e : String)
    (h : fp (some isolation_forest_random_state) g isolation_forest_contamination
        (extract_features logs) = .error e) :
    detect_anomalies fp g logs = [] := by
  unfold detect_anomalies run_isolation_forest
  rw [h]
  split <;> rfl

/-- C5 witness: the always-failing fit on the 10-record sample batch yields
the empty set. -/
theorem detect_anomalies_absorbs_fit_failure_witness :
    detect_anomalies fpFail 0 logs10 = [] :=
  detect_anomalies_absorbs_fit_failure fpFail 0 logs10 "ModelFittingError" rfl

/-- C6 counterexample: both sample sockets are established, and the record
of sock2 would insert fine into the pre-existing table on its own, yet
after the pass in which the insert for sock1 fails (duplicate id u0) the
table is unchanged — the record of sock2 was not persisted, because the
single try/except wraps the whole loop and the failure aborts the rest of
the batch instead of being isolated to sock1. -/
theorem monitor_single_failure_drops_remaining_sockets :
    established [sock1, sock2] = [sock1, sock2] ∧
    log_network_activity
        (build_log_entry "chrome.exe" "u1" "2026-10-12 10:00:00" sock2) storeDup =
      .ok (storeDup ++ [build_log_entry "chrome.exe" "u1" "2026-10-12 10:00:00" sock2]) ∧
    monitor_network_traffic "chrome.exe" idsDup "2026-10-12 10:00:00"
        [sock1, sock2] storeDup = storeDup := by
  refine ⟨by decide, by rfl, by decide⟩

/-- C6 amended: monitor_network_traffic never raises and never loses the
rows already in the table — the result always extends the table — and when
every insert succeeds (all fresh ids distinct and unused) it persists one
record per established socket; but a failing insert aborts the remainder
of the batch rather than only the affected socket. -/
theorem monitor_network_traffic_batch_abort (app : String) (ids : Nat → String)
    (now : String) (conns : List SocketConn) (store : List ConnectionRecord) :
    (∃ t, monitor_network_traffic app ids now conns store = store ++ t) ∧
    ((allIds store ++ allIds (monitor_entries app ids now conns)).Nodup →
      monitor_network_traffic app ids now conns store =
        store ++ monitor_entries app ids now conns) :=
  ⟨monitor_loop_extends _ _, fun h => monitor_loop_fresh _ _ h⟩

/-- C6 amended witness: the amended statement instantiated on the two
sample sockets, the distinct fresh id source and the empty table. -/
theorem monitor_network_traffic_batch_abort_witness :
    (∃ t, monitor_network_traffic "chrome.exe" uuidStream "2026-10-12 10:00:00"
        [sock1, sock2] [] = [] ++ t) ∧
    monitor_network_traffic "chrome.exe" uuidStream "2026-10-12 10:00:00"
        [sock1, sock2] [] =
      [] ++ monitor_entries "chrome.exe" uuidStream "2026-10-12 10:00:00" [sock1, sock2] :=
  ⟨(monitor_network_traffic_batch_abort "chrome.exe" uuidStream "2026-10-12 10:00:00"
      [sock1, sock2] []).1,
   (monitor_network_traffic_batch_abort "chrome.exe" uuidStream "2026-10-12 10:00:00"
      [sock1, sock2] []).2 (by decide)⟩

/-- C7 counterexample: the operating-system process table names the owner
of sock1 (pid 100) chrome.exe, yet the record the collector produces for
sock1 carries the caller-supplied argument firefox.exe — appName is not
resolved from the process table. -/
theorem monitor_app_name_from_argument_counterexample :
    (monitor_entries "firefox.exe" idsFresh "2026-10-12 10:00:00" [sock1]).map
        (fun r => r.app_name) = ["firefox.exe"] ∧
    spec_resolved_app_name procTable1 sock1 = some "chrome.exe" ∧
    "firefox.exe" ≠ "chrome.exe" := by
  refine ⟨by decide, by decide, by decide⟩

/-- C7 amended: for each established socket the collector produces one
record whose appName is the app_name argument of the pass (not the owning
process resolved from the process table), whose timestamp is the now() of
the pass, and whose id is fresh from the uuid source — pairwise distinct
whenever the source is injective. -/
theorem monitor_entries_fields_and_fresh_ids (app : String) (ids : Nat → String)
    (now : String) (conns : List SocketConn) :
    (∀ e ∈ monitor_entries app ids now conns, e.app_name = app ∧ e.timestamp = now) ∧
    ((∀ j k : Nat, ids j = ids k → j = k) →
      ((monitor_entries app ids now conns).map (fun r => r.id)).Nodup) ∧
    (monitor_entries app ids now conns).length = (established conns).length :=
  ⟨fun e he => monitor_entries_from_fields app ids now 0 (established conns) e he,
   fun hinj => monitor_entries_from_ids_nodup app ids now hinj 0 (established conns),
   monitor_entries_from_length app ids now 0 (established conns)⟩

/-- C7 amended witness: the amended statement instantiated on sock1, the
injective uuid source and a single-element pass. -/
theorem monitor_entries_fields_and_fresh_ids_witness :
    (sampleEntry.app_name = "chrome.exe" ∧ sampleEntry.timestamp = "2026-10-12 10:00:00") ∧
    ((monitor_entries "chrome.exe" uuidStream "2026-10-12 10:00:00" [sock1]).map
        (fun r => r.id)).Nodup ∧
    (monitor_entries "chrome.exe" uuidStream "2026-10-12 10:00:00" [sock1]).length =
      (established [sock1]).length :=
  ⟨(monitor_entries_fields_and_fresh_ids "chrome.exe" uuidStream "2026-10-12 10:00:00"
      [sock1]).1 sampleEntry (by decide),
   (monitor_entries_fields_and_fresh_ids "chrome.exe" uuidStream "2026-10-12 10:00:00"
      [sock1]).2.1 uuidStream_inj,
   (monitor_entries_fields_and_fresh_ids "chrome.exe" uuidStream "2026-10-12 10:00:00"
      [sock1]).2.2⟩

/-- C8: the Log Store is append-only — no sequence of store operations
avoiding clearAll reduces the row count — and after clearAll the count is 0
and the full-table read is empty. -/
theorem log_store_append_only (ops : List StoreOp) (s : List ConnectionRecord)
    (h : StoreOp.clearAll ∉ ops) :
    s.length ≤ (applyOps ops s).length ∧
    count_store (applyOp StoreOp.clearAll s) = 0 ∧
    query_all (applyOp StoreOp.clearAll s) = [] :=
  ⟨applyOps_length_le ops s h, rfl, rfl⟩

/-- C8 witness: the append-only statement instantiated on the sample
operation sequence (which contains a failing duplicate append and three
reads and no clearAll) over the one-row sample table. -/
theorem log_store_append_only_witness :
    storeDup.length ≤ (applyOps opsSample storeDup).length ∧
    count_store (applyOp StoreOp.clearAll storeDup) = 0 ∧
    query_all (applyOp StoreOp.clearAll storeDup) = [] :=
  log_store_append_only opsSample storeDup (by decide)

/-- C9: inserting a record whose id already exists in network_logs raises
the storage error and leaves the table unchanged — the duplicate is not
inserted and no existing row is modified. -/
theorem log_network_activity_duplicate_id (e : ConnectionRecord)
    (s : List ConnectionRecord) (h : ∃ r ∈ s, r.id = e.id) :
    (∃ msg, log_network_activity e s = Except.error msg) ∧
    applyOp (StoreOp.append e) s = s := by
  have hb : s.any (fun r => r.id == e.id) = true := by
    rw [List.any_eq_true]
    obtain ⟨r, hr, hre⟩ := h
    exact ⟨r, hr, by simp [hre]⟩
  constructor
  · refine ⟨"UNIQUE constraint failed: network_logs.id", ?_⟩
    simp [log_network_activity, hb]
  · simp [applyOp, log_network_activity, hb]

/-- C9 witness: the duplicate-id failure instantiated on a table already
holding the sample record. -/
theorem log_network_activity_duplicate_id_witness :
    (∃ msg, log_network_activity (sampleRecord 0) [sampleRecord 0] = Except.error msg) ∧
    applyOp (StoreOp.append (sampleRecord 0)) [sampleRecord 0] = [sampleRecord 0] :=
  log_network_activity_duplicate_id (sampleRecord 0) [sampleRecord 0] (by decide)

/-- C10: get_running_processes silently skips every per-process lookup that
failed with NoSuchProcess or AccessDenied and returns one descriptor per
readable process, each carrying the pid, the name, and the exe path with an
absent exe key reported as the string Unknown. -/
theorem get_running_processes_skips_failures
    (procs : List (Except ProcFailure ProcInfo)) :
    get_running_processes procs =
      (procs.filterMap Except.toOption).map
        (fun i => { pid := i.pid, name := i.name, path := i.exe.getD "Unknown" }) ∧
    ∀ d ∈ get_running_processes procs,
      ∃ i, Except.ok i ∈ procs ∧ d.pid = i.pid ∧ d.name = i.name ∧
        d.path = i.exe.getD "Unknown" := by
  constructor
  · induction procs with
    | nil => rfl
    | cons p rest ih =>
      cases p with
      | error f =>
        simpa [get_running_processes, List.filterMap_cons, Except.toOption] using ih
      | ok i =>
        simpa [get_running_processes, List.filterMap_cons, Except.toOption] using ih
  · intro d hd
    rw [get_running_processes, List.mem_filterMap] at hd
    obtain ⟨p, hp, hpd⟩ := hd
    cases p with
    | error f => simp at hpd
    | ok i =>
      simp only [Option.some.injEq] at hpd
      subst hpd
      exact ⟨i, hp, rfl, rfl, rfl⟩

/-- C10 witness: the skip-and-default statement instantiated on the sample
process iteration (one readable process, one denied lookup, one readable
process with no exe key) and the descriptor of the exe-less process. -/
theorem get_running_processes_skips_failures_witness :
    get_running_processes procsSample =
      (procsSample.filterMap Except.toOption).map
        (fun i => { pid := i.pid, name := i.name, path := i.exe.getD "Unknown" }) ∧
    ∃ i, Except.ok i ∈ procsSample ∧
      (ProcessDescriptor.mk 7 "kworker" "Unknown").pid = i.pid ∧
      (ProcessDescriptor.mk 7 "kworker" "Unknown").name = i.name ∧
      (ProcessDescriptor.mk 7 "kworker" "Unknown").path = i.exe.getD "Unknown" :=
  ⟨(get_running_processes_skips_failures procsSample).1,
   (get_running_processes_skips_failures procsSample).2
     (ProcessDescriptor.mk 7 "kworker" "Unknown") (by decide)⟩

